import Mathlib

/-!
Verification of the CloudFormation stack-lifecycle module
(src/cloud/amazon/cloudformation.py): a shallow embedding of its
reconciliation core — the polling state machine `stack_operation`, the
fact fetcher `get_stack_facts`, the event collector `get_stack_events`,
the retry wrapper `invoke_with_throttling_retries`, and the UPDATE branch
of `main` — together with theorems settling the specification claims.
-/

/-- `leadsWith p l` is true when the list `p` is an initial segment of `l`.
Written out recursively so all facts about it are provable by induction. -/
def leadsWith : List Char → List Char → Bool
  | [], _ => true
  | _ :: _, [] => false
  | a :: as, b :: bs => a == b && leadsWith as bs

/-- Embedding of the Python expression `s.endswith(suffix)` used throughout
`stack_operation`: the suffix, reversed, must be an initial segment of the
reversed string. -/
def pyEndsWith (s suffix : String) : Bool :=
  leadsWith suffix.data.reverse s.data.reverse

/-- `hasSub needle l` is true when `needle` occurs contiguously inside `l`,
i.e. `needle` is an initial segment of some tail of `l`. -/
def hasSub (needle : List Char) : List Char → Bool
  | [] => leadsWith needle []
  | c :: rest => leadsWith needle (c :: rest) || hasSub needle rest

/-- Embedding of the Python substring test `needle in haystack` used for
error-message matching ("does not exist", "No updates are to be performed."). -/
def pyIn (needle haystack : String) : Bool :=
  hasSub needle.data haystack.data

/-- A stack record as observed by `describe_stacks`; only the `StackStatus`
field is inspected by the reconciliation loop. -/
structure StackRecord where
  stackStatus : String
  deriving Repr, DecidableEq

/-- A Python exception relevant to the embedded fragment: a
`botocore` `ValidationError`/`ClientError` carrying its message, or the
`IndexError` raised by indexing an empty list. -/
inductive PyError where
  | clientError (msg : String)
  | indexError
  deriving Repr, DecidableEq

/-- The result dictionary returned by `stack_operation` and by the UPDATE
branch of `main`, restricted to the keys the claims are about. A key absent
from the Python dict is recorded as `false` (the host framework treats a
missing "failed"/"changed" key as falsy); the "events"/"log" keys merged from
`get_stack_events` are modelled separately by `get_stack_events` below. -/
structure OpResult where
  changed : Bool
  failed : Bool
  output : String
  deriving Repr, DecidableEq

/-- Outcome of one `get_stack_facts` call inside the polling loop:
`Except.error e` when the call raised exception `e`, `Except.ok none` when it
returned `None` (stack absent), `Except.ok (some r)` when it returned record
`r`. -/
abbrev Fetch := Except PyError (Option StackRecord)

/-- Embedding of the body of `stack_operation` (cloudformation.py lines
242-284). The Python loop keeps a list `existed` to which it appends "yes"
after EVERY fetch that does not raise — including a fetch that returns `None`
— and the membership test `"yes" in existed` is modelled by the boolean
`existed`. Each iteration consumes the next element of `polls`, the sequence
of `get_stack_facts` outcomes the loop would observe; an empty `polls` list
means the loop is still sleeping and polling, so the function returns `none`
(the Python loop has no other exit). A `raise` escaping the loop would be
`some (Except.error e)`; the bare `except:` at line 250 catches every
exception from `get_stack_facts`, so the faithful translation below never
produces that shape. The "events"/"log" keys added by `get_stack_events`
are dropped here (they never affect "changed"/"failed"/"output"). -/
def stack_operation_loop (operation : String) (existed : Bool) :
    List Fetch → Option (Except PyError OpResult)
  | [] => none
  | f :: rest =>
    match f with
    | .error _ =>
      -- bare `except:` — any exception lands here, the error value is discarded
      if existed || operation == "DELETE" then
        some (.ok { changed := true, failed := false, output := "Stack Deleted" })
      else
        some (.ok { changed := true, failed := false, output := "Stack Not Found" })
    | .ok stackOpt =>
      -- `existed.append("yes")` runs after every non-raising fetch,
      -- even one that observed the stack as absent
      let existed2 := true
      match stackOpt with
      | none =>
        if existed2 || operation == "DELETE" then
          some (.ok { changed := true, failed := false, output := "Stack Deleted" })
        else
          some (.ok { changed := false, failed := true, output := "Stack not found." })
      | some stack =>
        if pyEndsWith stack.stackStatus "_ROLLBACK_COMPLETE" then
          some (.ok { changed := true, failed := true,
                      output := "Problem with " ++ operation ++ ". Rollback complete" })
        else if pyEndsWith stack.stackStatus "_COMPLETE" then
          some (.ok { changed := true, failed := false,
                      output := "Stack " ++ operation ++ " complete" })
        else if pyEndsWith stack.stackStatus "_ROLLBACK_FAILED" then
          some (.ok { changed := true, failed := true,
                      output := "Stack " ++ operation ++ " rollback failed" })
        else if pyEndsWith stack.stackStatus "_FAILED" then
          some (.ok { changed := true, failed := true,
                      output := "Stack " ++ operation ++ " failed" })
        else
          -- in-progress status: time.sleep(5) and poll again
          stack_operation_loop operation existed2 rest

/-- `stack_operation` proper: the loop starts with an empty `existed` list. -/
def stack_operation (operation : String) (polls : List Fetch) :
    Option (Except PyError OpResult) :=
  stack_operation_loop operation false polls

/-- Embedding of `get_stack_facts` (lines 290-309). Its input is the outcome
of the `describe_stacks` call: `Except.error msg` when that call raised a
`ValidationError`/`ClientError` with message `msg` (as rendered by
`boto_exception`), `Except.ok stacks` when it returned a response whose
"Stacks" key holds the list `stacks`. Inside the `try` block the code indexes
`stack_response["Stacks"][0]`; on an empty list that raises `IndexError`,
which the `except (ValidationError, ClientError)` clause does not catch, so
it propagates. The guarded re-assignment after the `try` block re-reads the
same first element and cannot change the result. -/
def get_stack_facts (resp : Except String (List StackRecord)) :
    Except PyError (Option StackRecord) :=
  match resp with
  | .error msg =>
    if pyIn "does not exist" msg then
      -- missing stack: return None rather than raising
      .ok none
    else
      -- other error: `raise err`
      .error (.clientError msg)
  | .ok stackList =>
    match stackList with
    | [] => .error .indexError
    | s :: _ => .ok (some s)

/-- One entry of the "StackEvents" list returned by `describe_stack_events`,
restricted to the four fields `get_stack_events` reads. -/
structure StackEvent where
  resourceType : String
  logicalResourceId : String
  resourceStatus : String
  resourceStatusReason : String
  deriving Repr, DecidableEq

/-- The dictionary `get_stack_events` builds: the "events" list of formatted
event lines and the "log" list of failure/diagnostic lines. -/
structure EventsRet where
  events : List String
  log : List String
  deriving Repr, DecidableEq

/-- Embedding of `get_stack_events` (lines 217-240). Input is the outcome of
the `describe_stack_events` call: `Except.error msg` for a raised
`ValidationError`/`ClientError` with message `msg`, `Except.ok evs` for a
response whose "StackEvents" key holds `evs`. On a "does not exist" error the
code appends the line "Stack does not exist." to the log and returns; on any
other caught error it appends an "Unknown error: ..." line and returns. On
success it appends one formatted line per event to "events" and, for every
event whose status ends with "FAILED", one formatted line to "log". -/
def get_stack_events (resp : Except String (List StackEvent)) : EventsRet :=
  match resp with
  | .error msg =>
    if pyIn "does not exist" msg then
      { events := [], log := ["Stack does not exist."] }
    else
      { events := [], log := ["Unknown error: " ++ msg] }
  | .ok evs =>
    evs.foldl
      (fun ret e =>
        let eventline := "StackEvent " ++ e.resourceType ++ " "
          ++ e.logicalResourceId ++ " " ++ e.resourceStatus
        let ret' := { ret with events := ret.events ++ [eventline] }
        if pyEndsWith e.resourceStatus "FAILED" then
          { ret' with log := ret'.log ++ [e.resourceType ++ " "
              ++ e.logicalResourceId ++ " " ++ e.resourceStatus ++ ": "
              ++ e.resourceStatusReason] }
        else ret')
      { events := [], log := [] }

/-- Module-level constant (line 311), consulted only by the commented-out
retry condition of `invoke_with_throttling_retries`. -/
def IGNORE_CODE : String := "Throttling"

/-- Module-level constant (line 312), consulted only by the commented-out
retry condition of `invoke_with_throttling_retries`. -/
def MAX_RETRIES : Nat := 3

/-- Embedding of `invoke_with_throttling_retries` (lines 313-324). The
wrapped call is modelled as a map from attempt number to outcome. The Python
loop body is `try: return function_ref(...)` followed by an `except` clause
whose retry condition is commented out, leaving an unconditional `raise e`;
both branches leave the loop on the first iteration (the
`time.sleep(5 * (2**retries))` and `retries += 1` lines are unreachable), so
the embedding is the first attempt's outcome. The module-level constants
`IGNORE_CODE = "Throttling"` and `MAX_RETRIES = 3` are never consulted. -/
def invoke_with_throttling_retries {α : Type} (call : Nat → Except String α) :
    Except String α :=
  match call 0 with
  | .ok v => .ok v
  | .error e => .error e

/-- Result of the UPDATE branch of `main` (lines 412-427): either a result
dictionary assembled without polling, the value of `stack_operation`, or a
`module.fail_json` abort carrying the error message. -/
inductive UpdateStepResult where
  | result (r : OpResult)
  | polled (r : Option (Except PyError OpResult))
  | failJson (msg : String)
  deriving Repr

/-- Embedding of the UPDATE branch of `main` (lines 412-427), entered when
state is "present" and the stack exists. `upd` is the outcome of the
`cfn.update_stack(**stack_params)` call (`Except.error msg` when it raised
with message `msg`); `polls` is the poll sequence `stack_operation` would
observe. The boolean in the returned pair records whether `stack_operation`
was invoked: only a successful submission reaches it, because the call sits
after `update_stack` inside the same `try` block. -/
def main_update_branch (upd : Except String Unit) (polls : List Fetch) :
    UpdateStepResult × Bool :=
  match upd with
  | .ok () => (.polled (stack_operation "UPDATE" polls), true)
  | .error msg =>
    if pyIn "No updates are to be performed." msg then
      (.result { changed := false, failed := false,
                 output := "Stack is already up-to-date." }, false)
    else
      (.failJson msg, false)

deriving instance DecidableEq for Except

example : pyEndsWith "UPDATE_ROLLBACK_COMPLETE" "_ROLLBACK_COMPLETE" = true := by decide
example : pyEndsWith "ROLLBACK_COMPLETE" "_ROLLBACK_COMPLETE" = false := by decide
example : pyEndsWith "ROLLBACK_COMPLETE" "_COMPLETE" = true := by decide
example : pyEndsWith "ROLLBACK_FAILED" "_FAILED" = true := by decide
example : pyIn "does not exist" "Stack with id foo does not exist" = true := by decide

theorem leadsWith_trans {a b c : List Char} (h1 : leadsWith a b = true)
    (h2 : leadsWith b c = true) : leadsWith a c = true := by
  induction a generalizing b c with
  | nil => rfl
  | cons x xs ih =>
    cases b with
    | nil => simp [leadsWith] at h1
    | cons y ys =>
      cases c with
      | nil => simp [leadsWith] at h2
      | cons z zs =>
        simp only [leadsWith, Bool.and_eq_true, beq_iff_eq] at h1 h2 ⊢
        exact ⟨h1.1.trans h2.1, ih h1.2 h2.2⟩

theorem leadsWith_comparable {a b c : List Char} (h1 : leadsWith a c = true)
    (h2 : leadsWith b c = true) :
    leadsWith a b = true ∨ leadsWith b a = true := by
  induction c generalizing a b with
  | nil =>
    cases a with
    | nil => left; rfl
    | cons x xs => simp [leadsWith] at h1
  | cons z zs ih =>
    cases a with
    | nil => left; rfl
    | cons x xs =>
      cases b with
      | nil => right; rfl
      | cons y ys =>
        simp only [leadsWith, Bool.and_eq_true, beq_iff_eq] at h1 h2 ⊢
        rcases ih h1.2 h2.2 with h | h
        · exact Or.inl ⟨h1.1.trans h2.1.symm, h⟩
        · exact Or.inr ⟨h2.1.trans h1.1.symm, h⟩

/-- If `b` ends the string and `a` (reversed) leads `b` (reversed), then `a`
ends the string as well: a suffix of a suffix is a suffix. -/
theorem pyEndsWith_of_pyEndsWith {s a b : String}
    (hab : leadsWith a.data.reverse b.data.reverse = true)
    (h : pyEndsWith s b = true) : pyEndsWith s a = true :=
  leadsWith_trans hab h

/-- If neither of `a`, `b` (reversed) leads the other (reversed), a string
cannot end with both. -/
theorem pyEndsWith_excludes {s a b : String}
    (hab : leadsWith a.data.reverse b.data.reverse = false)
    (hba : leadsWith b.data.reverse a.data.reverse = false)
    (h : pyEndsWith s b = true) : pyEndsWith s a = false := by
  cases hsa : pyEndsWith s a with
  | false => rfl
  | true =>
    rcases leadsWith_comparable (c := s.data.reverse) hsa h with hc | hc
    · rw [hab] at hc; exact absurd hc (by simp)
    · rw [hba] at hc; exact absurd hc (by simp)

example :
    stack_operation "CREATE" [Except.ok none] =
      some (Except.ok { changed := true, failed := false, output := "Stack Deleted" }) := by
  decide

example :
    stack_operation "CREATE"
        [Except.ok (some ⟨"CREATE_IN_PROGRESS"⟩), Except.ok (some ⟨"CREATE_COMPLETE"⟩)] =
      some (Except.ok { changed := true, failed := false,
                        output := "Stack " ++ "CREATE" ++ " complete" }) := by
  decide

/-- C2: every stack status ending in "_ROLLBACK_COMPLETE" is classified by
`stack_operation` as rollback-complete with changed and failed both true —
even though every such status also ends in "_COMPLETE" (second conjunct) —
and never as a plain successful completion. -/
theorem C2_rollback_complete_priority (op status : String) (existed : Bool)
    (rest : List Fetch) (h : pyEndsWith status "_ROLLBACK_COMPLETE" = true) :
    stack_operation_loop op existed (Except.ok (some ⟨status⟩) :: rest) =
      some (Except.ok { changed := true, failed := true,
                        output := "Problem with " ++ op ++ ". Rollback complete" }) ∧
    pyEndsWith status "_COMPLETE" = true := by
  refine ⟨?_, pyEndsWith_of_pyEndsWith (by decide) h⟩
  simp [stack_operation_loop, h]

/-- Witness for C2 at the concrete status "UPDATE_ROLLBACK_COMPLETE". -/
theorem C2_rollback_complete_priority_witness :
    stack_operation_loop "UPDATE" false [Except.ok (some ⟨"UPDATE_ROLLBACK_COMPLETE"⟩)] =
      some (Except.ok { changed := true, failed := true,
                        output := "Problem with " ++ "UPDATE" ++ ". Rollback complete" }) ∧
    pyEndsWith "UPDATE_ROLLBACK_COMPLETE" "_COMPLETE" = true :=
  C2_rollback_complete_priority "UPDATE" "UPDATE_ROLLBACK_COMPLETE" false [] (by decide)

/-- C3: every stack status ending in "_ROLLBACK_FAILED" is classified by
`stack_operation` as rollback-failed with changed and failed both true —
even though every such status also ends in "_FAILED" (second conjunct) —
and never as a plain operation failure. -/
theorem C3_rollback_failed_priority (op status : String) (existed : Bool)
    (rest : List Fetch) (h : pyEndsWith status "_ROLLBACK_FAILED" = true) :
    stack_operation_loop op existed (Except.ok (some ⟨status⟩) :: rest) =
      some (Except.ok { changed := true, failed := true,
                        output := "Stack " ++ op ++ " rollback failed" }) ∧
    pyEndsWith status "_FAILED" = true := by
  have h1 : pyEndsWith status "_ROLLBACK_COMPLETE" = false :=
    pyEndsWith_excludes (by decide) (by decide) h
  have h2 : pyEndsWith status "_COMPLETE" = false :=
    pyEndsWith_excludes (by decide) (by decide) h
  refine ⟨?_, pyEndsWith_of_pyEndsWith (by decide) h⟩
  simp [stack_operation_loop, h, h1, h2]

/-- Witness for C3 at the concrete status "UPDATE_ROLLBACK_FAILED". -/
theorem C3_rollback_failed_priority_witness :
    stack_operation_loop "UPDATE" false [Except.ok (some ⟨"UPDATE_ROLLBACK_FAILED"⟩)] =
      some (Except.ok { changed := true, failed := true,
                        output := "Stack " ++ "UPDATE" ++ " rollback failed" }) ∧
    pyEndsWith "UPDATE_ROLLBACK_FAILED" "_FAILED" = true :=
  C3_rollback_failed_priority "UPDATE" "UPDATE_ROLLBACK_FAILED" false [] (by decide)

/-- C6: in a DELETE operation, any poll that observes the stack as absent —
in any loop state, so in particular on the very first poll — terminates
`stack_operation` with the Deleted classification, changed true and failed
false, never the Not Found outcome. -/
theorem C6_delete_absent_is_deleted (existed : Bool) (rest : List Fetch) :
    stack_operation_loop "DELETE" existed (Except.ok none :: rest) =
      some (Except.ok { changed := true, failed := false, output := "Stack Deleted" }) ∧
    stack_operation "DELETE" (Except.ok none :: rest) =
      some (Except.ok { changed := true, failed := false, output := "Stack Deleted" }) := by
  constructor <;> simp [stack_operation, stack_operation_loop]

/-- C10: the bare status "ROLLBACK_COMPLETE" does not end in the matched
suffix "_ROLLBACK_COMPLETE" (the leading underscore is part of the suffix),
so it falls through to the generic "_COMPLETE" branch and is classified as a
successful completion with failed false; likewise bare "ROLLBACK_FAILED"
falls through to the generic "_FAILED" branch. -/
theorem C10_bare_rollback_statuses (op : String) (existed : Bool) (rest : List Fetch) :
    stack_operation_loop op existed (Except.ok (some ⟨"ROLLBACK_COMPLETE"⟩) :: rest) =
      some (Except.ok { changed := true, failed := false,
                        output := "Stack " ++ op ++ " complete" }) ∧
    stack_operation_loop op existed (Except.ok (some ⟨"ROLLBACK_FAILED"⟩) :: rest) =
      some (Except.ok { changed := true, failed := true,
                        output := "Stack " ++ op ++ " failed" }) := by
  constructor <;> simp +decide [stack_operation_loop, pyEndsWith, leadsWith]

/-- C1 counterexample: for a CREATE operation whose very first fetch observes
the stack as absent (a successful fetch returning None), `stack_operation`
returns the Deleted classification, not the claimed Not Found one — the loop
appends to `existed` on every non-raising fetch, even one observing absence,
so the membership test that should distinguish the two outcomes is already
true. -/
theorem C1_counterexample :
    stack_operation "CREATE" [Except.ok none] =
      some (Except.ok { changed := true, failed := false, output := "Stack Deleted" }) ∧
    stack_operation "CREATE" [Except.ok none] ≠
      some (Except.ok { changed := true, failed := false, output := "Stack Not Found" }) :=
  ⟨by decide, by decide⟩

/-- C1 amended: for a non-DELETE operation, the Stack Not Found terminal
classification (changed true, failed false) arises when the very first fetch
RAISES an exception with no prior poll having succeeded; a first fetch that
successfully observes the stack as absent instead yields the Deleted
classification. -/
theorem C1_amended_notfound_on_first_error (op : String) (e : PyError)
    (rest rest2 : List Fetch) (h : (op == "DELETE") = false) :
    stack_operation op (Except.error e :: rest) =
      some (Except.ok { changed := true, failed := false, output := "Stack Not Found" }) ∧
    stack_operation op (Except.ok none :: rest2) =
      some (Except.ok { changed := true, failed := false, output := "Stack Deleted" }) := by
  constructor <;> simp [stack_operation, stack_operation_loop, h]

/-- Witness for the amended C1 at a concrete operation and error. -/
theorem C1_amended_notfound_on_first_error_witness :
    stack_operation "CREATE" [Except.error (PyError.clientError "AccessDenied")] =
      some (Except.ok { changed := true, failed := false, output := "Stack Not Found" }) ∧
    stack_operation "CREATE" [Except.ok none] =
      some (Except.ok { changed := true, failed := false, output := "Stack Deleted" }) :=
  C1_amended_notfound_on_first_error "CREATE" (PyError.clientError "AccessDenied") [] []
    (by decide)

/-- C4 counterexample: a fatal client error raised by the fact fetcher on the
first poll of a CREATE operation does not propagate out of `stack_operation`;
the bare except clause converts it into the Stack Not Found terminal
classification. -/
theorem C4_counterexample :
    stack_operation "CREATE"
        [Except.error (PyError.clientError "AccessDenied: not authorized")] =
      some (Except.ok { changed := true, failed := false, output := "Stack Not Found" }) ∧
    stack_operation "CREATE"
        [Except.error (PyError.clientError "AccessDenied: not authorized")] ≠
      some (Except.error (PyError.clientError "AccessDenied: not authorized")) :=
  ⟨by decide, by decide⟩

/-- C4 amended: every exception raised by the fact fetcher inside the polling
loop — "not found" or fatal alike — is caught by the bare except clause and
converted into a terminal classification: Deleted when a prior poll succeeded
or the operation is DELETE, Stack Not Found otherwise. No fetch error ever
propagates out of the loop. -/
theorem C4_amended_errors_classified (op : String) (existed : Bool) (e : PyError)
    (rest : List Fetch) :
    stack_operation_loop op existed (Except.error e :: rest) =
      some (Except.ok (if existed || op == "DELETE" then
          { changed := true, failed := false, output := "Stack Deleted" }
        else
          { changed := true, failed := false, output := "Stack Not Found" })) := by
  cases hc : (existed || op == "DELETE") <;> simp [stack_operation_loop, hc]

/-- C5: `invoke_with_throttling_retries` performs no retry at all — its retry
condition is commented out in the source, leaving an unconditional re-raise —
so a wrapped call that fails with a throttling error on its first two
attempts and would succeed on the third nevertheless produces the throttling
error immediately, contradicting the claimed 5/10/20 exponential backoff up
to the `MAX_RETRIES` ceiling; the intent constants are nevertheless present
in the module (second and third conjuncts). -/
theorem C5_no_retry_on_throttling :
    invoke_with_throttling_retries
        (fun n => if n < 2 then Except.error "Throttling" else Except.ok (0 : Nat)) =
      Except.error "Throttling" ∧
    IGNORE_CODE = "Throttling" ∧ MAX_RETRIES = 3 :=
  ⟨rfl, rfl, rfl⟩

/-- C7 counterexample: a describe response carrying an empty "Stacks" list
makes `get_stack_facts` raise IndexError rather than return the absent
value. -/
theorem C7_counterexample :
    get_stack_facts (Except.ok []) = Except.error PyError.indexError ∧
    get_stack_facts (Except.ok []) ≠ Except.ok none :=
  ⟨rfl, by decide⟩

/-- C7 amended: `get_stack_facts` returns the absent value exactly on a
"does not exist" client error; any other client error is re-raised; a
response with at least one stack record yields the first record; and a
response with zero records raises IndexError from the list indexing inside
the try block. -/
theorem C7_amended_fetch_contract (msg msg2 : String) (s : StackRecord)
    (l : List StackRecord) (hmsg : pyIn "does not exist" msg = true)
    (hmsg2 : pyIn "does not exist" msg2 = false) :
    get_stack_facts (Except.error msg) = Except.ok none ∧
    get_stack_facts (Except.error msg2) = Except.error (PyError.clientError msg2) ∧
    get_stack_facts (Except.ok (s :: l)) = Except.ok (some s) ∧
    get_stack_facts (Except.ok []) = Except.error PyError.indexError := by
  refine ⟨?_, ?_, rfl, rfl⟩ <;> simp [get_stack_facts, hmsg, hmsg2]

/-- Witness for the amended C7 at concrete messages and records. -/
theorem C7_amended_fetch_contract_witness :
    get_stack_facts (Except.error "Stack with id foo does not exist") = Except.ok none ∧
    get_stack_facts (Except.error "AccessDenied") =
      Except.error (PyError.clientError "AccessDenied") ∧
    get_stack_facts (Except.ok (⟨"CREATE_COMPLETE"⟩ :: [])) =
      Except.ok (some ⟨"CREATE_COMPLETE"⟩) ∧
    get_stack_facts (Except.ok []) = Except.error PyError.indexError :=
  C7_amended_fetch_contract "Stack with id foo does not exist" "AccessDenied"
    ⟨"CREATE_COMPLETE"⟩ [] (by decide) (by decide)

/-- C8 counterexample: on a "does not exist" error the event collector
returns an empty events list but a NON-empty log — it records the line
"Stack does not exist." — so its result is not the empty/empty pair the
claim states. -/
theorem C8_counterexample :
    get_stack_events (Except.error "Stack with id foo does not exist") =
      { events := [], log := ["Stack does not exist."] } ∧
    get_stack_events (Except.error "Stack with id foo does not exist") ≠
      { events := [], log := [] } :=
  ⟨by decide, by decide⟩

/-- C8 amended: on any "does not exist" error the event collector returns
empty events and a log holding exactly the single informational line
"Stack does not exist.", rather than raising an error. -/
theorem C8_amended_missing_stack (msg : String)
    (h : pyIn "does not exist" msg = true) :
    get_stack_events (Except.error msg) =
      { events := [], log := ["Stack does not exist."] } := by
  simp [get_stack_events, h]

/-- Witness for the amended C8 at a concrete message. -/
theorem C8_amended_missing_stack_witness :
    get_stack_events (Except.error "Stack with id foo does not exist") =
      { events := [], log := ["Stack does not exist."] } :=
  C8_amended_missing_stack "Stack with id foo does not exist" (by decide)

/-- C9: an UPDATE submission the remote rejects with a message containing
"No updates are to be performed." is translated into the successful
changed-false up-to-date result; the polling loop is not invoked (the second
component is false) and no fail_json error is produced. -/
theorem C9_noop_update (msg : String) (polls : List Fetch)
    (h : pyIn "No updates are to be performed." msg = true) :
    main_update_branch (Except.error msg) polls =
      (UpdateStepResult.result { changed := false, failed := false,
                                 output := "Stack is already up-to-date." }, false) := by
  simp [main_update_branch, h]

/-- Witness for C9 at the concrete rejection message. -/
theorem C9_noop_update_witness :
    main_update_branch (Except.error "No updates are to be performed.") [] =
      (UpdateStepResult.result { changed := false, failed := false,
                                 output := "Stack is already up-to-date." }, false) :=
  C9_noop_update "No updates are to be performed." [] (by decide)
